import Mathlib

/-!
Verification development for the mcp.core trust/routing/accountability layer.

The definitions below are a shallow embedding of the TypeScript sources:
  * `src/src/policy/PolicyEngine.ts`   — policy engine (supplies, matching, rate limits)
  * `src/src/router/PlanRouter.ts`     — audited router with `PolicyDeniedError`
  * `src/src/audit/AuditLogger.ts`     — buffered audit log with redaction
  * `src/src/local/MCPSupplyManager.ts`— provider side of the remote credential protocol
  * `src/src/remote/MCPDemandManager.ts` and `MCPCredentialCache.ts` — consumer side
  * `src/src/remote/MCPRemoteClient.ts`— outbound remote tool calls

JavaScript `Map` objects are embedded as association lists with
first-match lookup; `Map.set` / `Map.delete` are `mapSet` / `mapDelete`.
Timestamps (`Date.now()`) are passed in explicitly as `Nat` arguments.
External side effects (ONE.core storage writes, messaging sends) are made
visible as explicit event lists in the return values of the embedded
functions, so that "never persisted" / "never sent" claims are statable.
-/

namespace McpCore

/-- JS `Map.set m k v`: replace any binding of `k`, bind `k` to `v`. -/
def mapSet {β : Type} (m : List (String × β)) (k : String) (v : β) :
    List (String × β) :=
  (k, v) :: m.filter (fun p => p.1 != k)

/-- JS `Map.delete m k`: remove any binding of `k`. -/
def mapDelete {β : Type} (m : List (String × β)) (k : String) :
    List (String × β) :=
  m.filter (fun p => p.1 != k)

/-! ## Router types (`src/unnamed/part_004`, router/types.ts) -/

/-- `export type CallerType = 'user' | 'llm' | 'remote' | 'system'`. -/
inductive CallerType
  | user
  | llm
  | remote
  | system
deriving DecidableEq

/-- `export type EntryPoint = 'ipc' | 'mcp-local' | 'mcp-remote' | 'http' | 'internal'`. -/
inductive EntryPoint
  | ipc
  | mcpLocal
  | mcpRemote
  | http
  | internal
deriving DecidableEq

/-- `RequestContext` from router/types.ts.  Optional fields are `Option`s
(`none` embeds the JS `undefined`). -/
structure RequestContext where
  callerId : String
  callerType : CallerType
  entryPoint : EntryPoint
  topicId : Option String := none
  conversationId : Option String := none
  timestamp : Nat
  requestId : String
  credentialId : Option String := none
deriving DecidableEq

/-- Untyped JS parameter values, as far as the audit redaction logic
inspects them: strings are distinguished (they can be truncated), all other
values are opaque. -/
inductive JsValue
  | str (s : String)
  | num (n : Int)
  | boolean (b : Bool)
  | other
deriving DecidableEq

/-- A JS parameters object, embedded as an association list of its own
enumerable keys (JS objects have no duplicate keys). -/
abbrev Params := List (String × JsValue)

/-- `export type PolicyAction = 'allow' | 'deny' | 'allow-with-audit' | 'rate-limit'`. -/
inductive PolicyAction
  | allow
  | deny
  | allowWithAudit
  | rateLimit
deriving DecidableEq

/-- `keyBy: 'caller' | 'topic' | 'method' | 'plan'` of the rate-limit config. -/
inductive RateKeyBy
  | caller
  | topic
  | method
  | plan
deriving DecidableEq

/-- Rate limit configuration of a supply (PolicyEngine.ts, `rateLimit` field). -/
structure RateLimitConfig where
  maxRequests : Nat
  windowMs : Nat
  keyBy : RateKeyBy
deriving DecidableEq

/-- `PolicySupply` (PolicyEngine.ts lines 25-40): the in-memory access rule.
TS optional array fields become `Option (List _)`; `none` is an absent list,
`some []` a present-but-empty one (the distinction matters for claim C10). -/
structure PolicySupply where
  id : String
  name : String
  priority : Int
  plans : Option (List String) := none
  methods : Option (List String) := none
  allowedCallerTypes : Option (List CallerType) := none
  allowedEntryPoints : Option (List EntryPoint) := none
  allowedTopics : Option (List String) := none
  action : PolicyAction
  rateLimit : Option RateLimitConfig := none
deriving DecidableEq

/-- `RateLimitInfo` from router/types.ts; `remaining := none` embeds the JS
`Infinity` returned when a rule has no rate-limit config. -/
structure RateLimitInfo where
  limited : Bool
  remaining : Option Nat
  resetAt : Nat
  retryAfter : Option Int := none
deriving DecidableEq

/-- `PolicyDecision` from router/types.ts. -/
structure PolicyDecision where
  allowed : Bool
  reason : Option String := none
  filteredParams : Option Params := none
  rateLimit : Option RateLimitInfo := none
  audit : Option Bool := none
  matchedRules : List String
deriving DecidableEq

/-! ## PolicyEngine (`src/src/policy/PolicyEngine.ts`) -/

/-- One entry of `rateLimitCounters: Map<string, { count, resetAt }>`. -/
structure RateCounter where
  count : Nat
  resetAt : Nat
deriving DecidableEq

abbrev RateCounters := List (String × RateCounter)

/-- State of a `PolicyEngine` instance: the `sortedSupplies` array (kept in
descending priority order) and the rate-limit counters. -/
structure PolicyEngineState where
  sortedSupplies : List PolicySupply
  rateLimitCounters : RateCounters
deriving DecidableEq

/-- Comparator used by `sort((a, b) => b.priority - a.priority)`:
descending priority. -/
def suppliesLE (a b : PolicySupply) : Bool :=
  decide (b.priority ≤ a.priority)

/-- The engine's `Array.from(map.values()).sort((a, b) => b.priority - a.priority)`,
a stable descending sort (JS `Array.prototype.sort` is stable). -/
def sortSupplies (l : List PolicySupply) : List PolicySupply :=
  l.mergeSort suppliesLE

/-- `PolicyEngine.matchesPattern` (PolicyEngine.ts lines 328-348):
exact match, `*`, trailing-`*` and leading-`*` wildcards. -/
def matchesPattern (value : String) (patterns : List String) : Bool :=
  patterns.any (fun pat =>
    if pat = "*" then true
    else if pat.endsWith "*" then value.startsWith (pat.dropRight 1)
    else if pat.startsWith "*" then value.endsWith (pat.drop 1)
    else pat = value)

/-- `PolicyEngine.matchesSupply` (PolicyEngine.ts lines 281-323).  Each
dimension is checked only when the allow-list is present AND non-empty
(`supply.x && supply.x.length > 0`); the topic check additionally requires
the context to carry a topic id. -/
def matchesSupply (context : RequestContext) (plan method : String)
    (supply : PolicySupply) : Bool :=
  (match supply.allowedCallerTypes with
   | some allowed => allowed.isEmpty || allowed.contains context.callerType
   | none => true)
  && (match supply.allowedEntryPoints with
      | some allowed => allowed.isEmpty || allowed.contains context.entryPoint
      | none => true)
  && (match supply.plans with
      | some pats => pats.isEmpty || matchesPattern plan pats
      | none => true)
  && (match supply.methods with
      | some pats => pats.isEmpty || matchesPattern method pats
      | none => true)
  && (match supply.allowedTopics with
      | some allowed =>
          allowed.isEmpty ||
            (match context.topicId with
             | some t => allowed.contains t
             | none => false)
      | none => true)

/-- The rate-limit counter key (PolicyEngine.ts lines 365-382); the
`context.topicId || 'global'` fallback for the topic dimension. -/
def rateLimitKey (context : RequestContext) (plan method : String)
    (supply : PolicySupply) (cfg : RateLimitConfig) : String :=
  match cfg.keyBy with
  | .caller => supply.id ++ ":" ++ context.callerId
  | .topic =>
      supply.id ++ ":" ++
        (match context.topicId with
         | some t => t
         | none => "global")
  | .method => supply.id ++ ":" ++ plan ++ "." ++ method
  | .plan => supply.id ++ ":" ++ plan

/-- `PolicyEngine.checkRateLimit` (PolicyEngine.ts lines 353-409).  The
counter is reset lazily when its window expired (`resetAt <= now`),
incremented, written back, and the request is limited when the new count
exceeds `maxRequests`. -/
def checkRateLimit (now : Nat) (context : RequestContext) (plan method : String)
    (supply : PolicySupply) (counters : RateCounters) :
    RateLimitInfo × RateCounters :=
  match supply.rateLimit with
  | none => ({ limited := false, remaining := none, resetAt := 0 }, counters)
  | some cfg =>
    let key := rateLimitKey context plan method supply cfg
    let fresh : RateCounter := { count := 0, resetAt := now + cfg.windowMs }
    let base : RateCounter :=
      match counters.lookup key with
      | none => fresh
      | some c => if c.resetAt ≤ now then fresh else c
    let bumped : RateCounter := { base with count := base.count + 1 }
    let counters1 := mapSet counters key bumped
    if cfg.maxRequests < bumped.count then
      ({ limited := true, remaining := some 0, resetAt := bumped.resetAt,
         retryAfter := some ((bumped.resetAt : Int) - (now : Int)) }, counters1)
    else
      ({ limited := false, remaining := some (cfg.maxRequests - bumped.count),
         resetAt := bumped.resetAt }, counters1)

/-- The loop body of `PolicyEngine.evaluate` (PolicyEngine.ts lines 175-244),
recursing over the (already priority-sorted) supply list and threading the
matched-rule accumulator and the rate-limit counters.  The best-effort
`logDemand` write to storage is an external side effect not modelled here. -/
def evaluateGo (now : Nat) (context : RequestContext) (plan method : String) :
    List PolicySupply → List String → RateCounters →
    PolicyDecision × RateCounters
  | [], matched, counters =>
      ({ allowed := false, reason := some "No matching supply",
         matchedRules := matched }, counters)
  | supply :: rest, matched, counters =>
      if matchesSupply context plan method supply then
        let matched1 := matched ++ [supply.id]
        match supply.action with
        | .allow =>
            ({ allowed := true, audit := some false,
               matchedRules := matched1 }, counters)
        | .allowWithAudit =>
            ({ allowed := true, audit := some true,
               matchedRules := matched1 }, counters)
        | .deny =>
            ({ allowed := false,
               reason := some ("Denied by supply: " ++ supply.name),
               matchedRules := matched1 }, counters)
        | .rateLimit =>
            let r := checkRateLimit now context plan method supply counters
            if r.1.limited then
              ({ allowed := false,
                 reason := some ("Rate limited: retry after " ++
                   (match r.1.retryAfter with
                    | some ra => toString ra
                    | none => "undefined") ++ "ms"),
                 rateLimit := some r.1, matchedRules := matched1 }, r.2)
            else
              evaluateGo now context plan method rest matched1 r.2
      else
        evaluateGo now context plan method rest matched counters

/-- `PolicyEngine.evaluate`: run the loop over `sortedSupplies` starting from
an empty matched list, returning the decision and the updated engine state. -/
def PolicyEngine.evaluate (now : Nat) (st : PolicyEngineState)
    (context : RequestContext) (plan method : String) :
    PolicyDecision × PolicyEngineState :=
  let r := evaluateGo now context plan method st.sortedSupplies []
    st.rateLimitCounters
  (r.1, { st with rateLimitCounters := r.2 })

/-! ## AuditLogger (`src/unnamed/part_011`, audit/AuditLogger.ts) -/

/-- The `decision: 'allowed' | 'denied'` field of an audit entry. -/
inductive AuditDecision
  | allowed
  | denied
deriving DecidableEq

/-- `AuditEntryObject` from router/types.ts.  The `params` field is kept as
the structured snapshot produced by redaction; the `JSON.stringify`
serialization boundary is not modelled (it is injective on this data). -/
structure AuditEntryObject where
  id : String
  timestamp : Nat
  requestId : String
  callerId : String
  callerType : CallerType
  entryPoint : EntryPoint
  plan : String
  method : String
  params : Params
  topicId : Option String := none
  credentialId : Option String := none
  decision : AuditDecision
  denyReason : Option String := none
  executionTimeMs : Option Nat := none
  success : Option Bool := none
  error : Option String := none
  matchedRules : List String
deriving DecidableEq

/-- State of an `AuditLogger` instance: the in-memory write buffer, and the
entries already persisted through the `storeEntry` collaborator (storage
writes are assumed to succeed; the failure/requeue path is not needed by
the claims settled here). -/
structure AuditState where
  buffer : List AuditEntryObject := []
  stored : List AuditEntryObject := []
deriving DecidableEq

namespace AuditLogger

/-- `private readonly BUFFER_SIZE = 100`. -/
def BUFFER_SIZE : Nat := 100

/-- The sensitive key list of `redactSensitive` (AuditLogger.ts line 202). -/
def sensitiveKeys : List String :=
  ["password", "secret", "token", "apiKey", "privateKey"]

/-- First loop of `redactSensitive` (AuditLogger.ts lines 203-207): a
sensitive-looking key has its value replaced by `'[REDACTED]'`. -/
def redactPair (kv : String × JsValue) : String × JsValue :=
  if sensitiveKeys.contains kv.1 then (kv.1, JsValue.str "[REDACTED]") else kv

/-- Second loop of `redactSensitive` (AuditLogger.ts lines 210-214): a
string value longer than 1000 characters is truncated at 1000 and marked
with `'...[truncated]'`. -/
def truncatePair (kv : String × JsValue) : String × JsValue :=
  match kv.2 with
  | JsValue.str s =>
      if 1000 < s.length then
        (kv.1, JsValue.str (s.take 1000 ++ "...[truncated]"))
      else kv
  | _ => kv

/-- `AuditLogger.redactSensitive` (AuditLogger.ts lines 194-217): first every
sensitive-looking key has its value replaced by `'[REDACTED]'`, then every
string value longer than 1000 characters is truncated and marked.  The
final `JSON.stringify` is the serialization boundary left unmodelled. -/
def redactSensitive (params : Params) : Params :=
  (params.map redactPair).map truncatePair

/-- The `AuditEntryObject` literal built by `logRequest`
(AuditLogger.ts lines 78-94). -/
def entryOf (context : RequestContext) (plan method : String) (params : Params)
    (decision : AuditDecision) (matchedRules : List String)
    (denyReason : Option String) : AuditEntryObject :=
  { id := context.requestId
    timestamp := context.timestamp
    requestId := context.requestId
    callerId := context.callerId
    callerType := context.callerType
    entryPoint := context.entryPoint
    plan := plan
    method := method
    params := redactSensitive params
    topicId := context.topicId
    credentialId := context.credentialId
    decision := decision
    denyReason := denyReason
    matchedRules := matchedRules }

/-- `AuditLogger.flush` (AuditLogger.ts lines 161-177), on the success path:
the buffer is drained and its entries stored in order. -/
def flush (st : AuditState) : AuditState :=
  { buffer := [], stored := st.stored ++ st.buffer }

/-- `AuditLogger.logRequest` (AuditLogger.ts lines 69-106): build the
redacted entry, push it onto the buffer, flush if the buffer reached
`BUFFER_SIZE`, and return the entry id synchronously. -/
def logRequest (st : AuditState) (context : RequestContext)
    (plan method : String) (params : Params) (decision : AuditDecision)
    (matchedRules : List String) (denyReason : Option String) :
    String × AuditState :=
  let entry := entryOf context plan method params decision matchedRules denyReason
  let st1 : AuditState := { st with buffer := st.buffer ++ [entry] }
  let st2 := if BUFFER_SIZE ≤ st1.buffer.length then flush st1 else st1
  (entry.id, st2)

/-- Update the first matching element of a list, if any (the JS
`array.find` + in-place mutation idiom). -/
def updateFirst {α : Type} (p : α → Bool) (f : α → α) : List α → List α
  | [] => []
  | x :: xs => if p x then f x :: xs else x :: updateFirst p f xs

/-- `AuditLogger.logResult` (AuditLogger.ts lines 111-126): attach the
execution outcome to the buffered entry with the given request id; if the
entry already flushed, the update is silently skipped. -/
def logResult (st : AuditState) (requestId : String) (success : Bool)
    (executionTimeMs : Nat) (error : Option String) : AuditState :=
  { st with
    buffer := updateFirst (fun e => e.id == requestId)
      (fun e => { e with success := some success,
                         executionTimeMs := some executionTimeMs,
                         error := error }) st.buffer }

end AuditLogger

/-! ## PlanRouter (`src/src/router/PlanRouter.ts`) -/

/-- `PlanResult<T>` from router/types.ts. -/
structure PlanResult (T : Type) where
  success : Bool
  data : Option T := none
  error : Option String := none
deriving DecidableEq

/-- Outcome of `PlanRouter.call`: either the distinguishable
`PolicyDeniedError` (PlanRouter.ts lines 18-26), which carries the whole
`PolicyDecision`, or a `PlanResult` (success or caught execution failure). -/
inductive CallOutcome (T : Type)
  | policyDenied (decision : PolicyDecision)
  | completed (result : PlanResult T)
deriving DecidableEq

/-- Observable steps of one `PlanRouter.call`, in execution order.
`registryInvoked` is emitted exactly when `registry.callPlanMethod` runs. -/
inductive RouterEvent
  | policyEvaluated
  | auditRequestLogged
  | registryInvoked
  | auditResultLogged
deriving DecidableEq

/-- The external operation registry, `callPlanMethod(plan, method, params)`:
a total function into `Except` (`.error` embeds a thrown JS error). -/
abbrev PlanRegistry (T : Type) := String → String → Params → Except String T

/-- JS truthiness of the optional `decision.audit` flag
(`undefined` and `false` are falsy). -/
def jsBool (b : Option Bool) : Bool :=
  match b with
  | some v => v
  | none => false

/-- Combined output of `PlanRouter.call`. -/
structure CallOutput (T : Type) where
  outcome : CallOutcome T
  engine : PolicyEngineState
  audit : AuditState
  events : List RouterEvent
deriving DecidableEq

/-- `PlanRouter.call` (PlanRouter.ts lines 48-108).  `now` is the
`Date.now()` taken at entry (`startTime`), `endTime` the one taken after
execution, so `executionTimeMs = endTime - now`.  Step order: evaluate
policy, conditionally log the request, throw `PolicyDeniedError` if
denied, otherwise execute through the registry with the policy-filtered
parameters and log the outcome when the decision asked for audit. -/
def PlanRouter.call {T : Type} (now endTime : Nat) (engine : PolicyEngineState)
    (audit : AuditState) (registry : PlanRegistry T) (context : RequestContext)
    (plan method : String) (params : Params) : CallOutput T :=
  let er := PolicyEngine.evaluate now engine context plan method
  let decision := er.1
  let engine1 := er.2
  let ev0 := [RouterEvent.policyEvaluated]
  let step2 :=
    if jsBool decision.audit || !decision.allowed then
      ((AuditLogger.logRequest audit context plan method params
          (if decision.allowed then .allowed else .denied)
          decision.matchedRules decision.reason).2,
       ev0 ++ [RouterEvent.auditRequestLogged])
    else (audit, ev0)
  let audit1 := step2.1
  let ev1 := step2.2
  if !decision.allowed then
    { outcome := .policyDenied decision, engine := engine1,
      audit := audit1, events := ev1 }
  else
    let safeParams := decision.filteredParams.getD params
    let ev2 := ev1 ++ [RouterEvent.registryInvoked]
    match registry plan method safeParams with
    | .ok value =>
        let step6 :=
          if jsBool decision.audit then
            (AuditLogger.logResult audit1 context.requestId true
               (endTime - now) none,
             ev2 ++ [RouterEvent.auditResultLogged])
          else (audit1, ev2)
        { outcome := .completed { success := true, data := some value },
          engine := engine1, audit := step6.1, events := step6.2 }
    | .error msg =>
        let step6 :=
          if jsBool decision.audit then
            (AuditLogger.logResult audit1 context.requestId false
               (endTime - now) (some msg),
             ev2 ++ [RouterEvent.auditResultLogged])
          else (audit1, ev2)
        { outcome := .completed { success := false, error := some msg },
          engine := engine1, audit := step6.1, events := step6.2 }

/-! ## Remote protocol types (`src/src/remote/index.ts`, remote/types.ts)

Person and topic ids (`SHA256IdHash`) are embedded as strings, matching the
`String(...)` key coercions of the sources. -/

/-- `MCPSupply`: a provider's offer of MCP service in one topic. -/
structure MCPSupply where
  topicId : String
  providerPersonId : String
  allowedTools : Option (List String) := none
  createdAt : Nat
deriving DecidableEq

/-- `MCPDemand`: a consumer's request for MCP access in one topic. -/
structure MCPDemand where
  topicId : String
  requesterPersonId : String
  createdAt : Nat
deriving DecidableEq

/-- `MCPCredential`: the grant for a (topic, provider, consumer) key.
`revokedAt?: number` is an optional JS number; `none` embeds `undefined`. -/
structure MCPCredential where
  topicId : String
  providerPersonId : String
  consumerPersonId : String
  allowedTools : Option (List String) := none
  issuedAt : Nat
  revokedAt : Option Nat := none
deriving DecidableEq

/-- JS truthiness of an optional number field: `if (x)` is false for
`undefined` AND for the number `0`. -/
def jsTruthyNum (x : Option Nat) : Bool :=
  match x with
  | some n => n != 0
  | none => false

/-! ## MCPSupplyManager (`src/src/local/MCPSupplyManager.ts`) -/

/-- State of an `MCPSupplyManager`: `supplies: Map<topicId, MCPSupply>` and
`issuedCredentials: Map<topicId, Set<consumerPersonId>>` (the set embedded
as a duplicate-free list). -/
structure MCPSupplyState where
  supplies : List (String × MCPSupply) := []
  issuedCredentials : List (String × List String) := []
deriving DecidableEq

/-- External side effects of one supply-manager operation:
`storeVersionedObject` writes of credentials, and
`sendCredential(target, credential)` messaging deliveries. -/
structure MCPIssueEvents where
  storedCredentials : List MCPCredential := []
  sentCredentials : List (String × MCPCredential) := []
deriving DecidableEq

namespace MCPSupplyManager

/-- `MCPSupplyManager.handleDemand` (MCPSupplyManager.ts lines 75-114):
ignore the demand when no supply covers the topic; skip issuance when the
(topic, consumer) pair is already tracked as issued; otherwise create the
credential, persist it, track it, and deliver it to the consumer. -/
def handleDemand (myPersonId : String) (now : Nat) (st : MCPSupplyState)
    (demand : MCPDemand) :
    Option MCPCredential × MCPSupplyState × MCPIssueEvents :=
  match st.supplies.lookup demand.topicId with
  | none => (none, st, {})
  | some supply =>
    let issued := (st.issuedCredentials.lookup demand.topicId).getD []
    if issued.contains demand.requesterPersonId then
      (none, st, {})
    else
      let credential : MCPCredential :=
        { topicId := demand.topicId
          providerPersonId := myPersonId
          consumerPersonId := demand.requesterPersonId
          allowedTools := supply.allowedTools
          issuedAt := now }
      let issued1 :=
        mapSet st.issuedCredentials demand.topicId
          (issued ++ [demand.requesterPersonId])
      let st1 : MCPSupplyState := { st with issuedCredentials := issued1 }
      (some credential, st1,
       { storedCredentials := [credential]
         sentCredentials := [(demand.requesterPersonId, credential)] })

/-- `MCPSupplyManager.removeSupply` (MCPSupplyManager.ts lines 51-55): only
`supplies.delete(topicKey)` — the issued-credential tracking is untouched
and no revocation message is sent (the source notes this as a TODO). -/
def removeSupply (st : MCPSupplyState) (topicId : String) :
    MCPSupplyState × MCPIssueEvents :=
  ({ st with supplies := mapDelete st.supplies topicId }, {})

/-- `MCPSupplyManager.hasValidCredential` (MCPSupplyManager.ts lines
144-150): membership of the consumer in the topic's issued-set. -/
def hasValidCredential (st : MCPSupplyState)
    (topicId consumerPersonId : String) : Bool :=
  ((st.issuedCredentials.lookup topicId).getD []).contains consumerPersonId

end MCPSupplyManager

/-! ## MCPCredentialCache / MCPDemandManager (`src/src/remote/`) -/

/-- The consumer-side cache: `Map<topicId, Map<providerPersonId, MCPCredential>>`. -/
abbrev CredCache := List (String × List (String × MCPCredential))

namespace MCPCredentialCache

/-- `MCPCredentialCache.addCredential`. -/
def addCredential (cache : CredCache) (credential : MCPCredential) : CredCache :=
  let topicKey := credential.topicId
  let inner := (cache.lookup topicKey).getD []
  mapSet cache topicKey (mapSet inner credential.providerPersonId credential)

/-- `MCPCredentialCache.getCredential`. -/
def getCredential (cache : CredCache) (topicId providerPersonId : String) :
    Option MCPCredential :=
  (cache.lookup topicId).bind (fun inner => inner.lookup providerPersonId)

/-- `MCPCredentialCache.removeCredential` (MCPCredentialCache.ts lines
123-134): delete the provider's entry, and drop the topic's inner map when
it became empty. -/
def removeCredential (cache : CredCache) (topicId providerPersonId : String) :
    CredCache :=
  match cache.lookup topicId with
  | none => cache
  | some inner =>
    let inner1 := mapDelete inner providerPersonId
    if inner1.isEmpty then mapDelete cache topicId
    else mapSet cache topicId inner1

/-- `MCPCredentialCache.hasCredential` (MCPCredentialCache.ts lines
139-144): a credential is valid while present and while
`credential.revokedAt` is JS-falsy. -/
def hasCredential (cache : CredCache) (topicId providerPersonId : String) :
    Bool :=
  match getCredential cache topicId providerPersonId with
  | none => false
  | some credential => !(jsTruthyNum credential.revokedAt)

/-- `MCPCredentialCache.isToolAllowed` (MCPCredentialCache.ts lines
173-184): valid credential required; an absent or empty allow-list permits
every tool. -/
def isToolAllowed (cache : CredCache) (topicId providerPersonId : String)
    (toolName : String) : Bool :=
  match getCredential cache topicId providerPersonId with
  | none => false
  | some credential =>
    if jsTruthyNum credential.revokedAt then false
    else
      match credential.allowedTools with
      | none => true
      | some tools => tools.isEmpty || tools.contains toolName

end MCPCredentialCache

namespace MCPDemandManager

/-- `MCPDemandManager.revokeCredential` (MCPDemandManager.ts lines 59-61):
delegate to the cache's `removeCredential`. -/
def revokeCredential (cache : CredCache) (topicId providerPersonId : String) :
    CredCache :=
  MCPCredentialCache.removeCredential cache topicId providerPersonId

/-- `MCPDemandManager.hasAccess` (MCPDemandManager.ts lines 66-68). -/
def hasAccess (cache : CredCache) (topicId providerPersonId : String) : Bool :=
  MCPCredentialCache.hasCredential cache topicId providerPersonId

/-- `MCPDemandManager.isToolAllowed` (MCPDemandManager.ts lines 80-82). -/
def isToolAllowed (cache : CredCache) (topicId providerPersonId : String)
    (toolName : String) : Bool :=
  MCPCredentialCache.isToolAllowed cache topicId providerPersonId toolName

end MCPDemandManager

/-! ## MCPRemoteClient (`src/unnamed/part_012`, remote/MCPRemoteClient.ts) -/

/-- The stored `MCPToolCall` object; `parameters` kept structured
(`JSON.stringify` boundary unmodelled). -/
structure MCPToolCallObject where
  id : String
  toolName : String
  parameters : Params
  timestamp : Nat
  topicId : String
deriving DecidableEq

/-- `MCPRequest` chat envelope: the target and the content hash of the
stored tool call. -/
structure MCPRequest where
  targetPersonId : String
  toolCall : String
deriving DecidableEq

/-- One entry of the client's pending-request table. -/
structure PendingRequest where
  toolCallHash : String
  timeoutAt : Nat
deriving DecidableEq

/-- External side effects of one `callTool`: `storeVersionedObject` writes
of tool calls, and `sendMessage(topicId, request)` deliveries. -/
structure RemoteClientEvents where
  storedToolCalls : List MCPToolCallObject := []
  sentMessages : List (String × MCPRequest) := []
deriving DecidableEq

namespace MCPRemoteClient

/-- `private readonly REQUEST_TIMEOUT = 30000`. -/
def REQUEST_TIMEOUT : Nat := 30000

/-- `MCPRemoteClient.callTool` (MCPRemoteClient.ts lines 42-90).  The two
fail-fast guards run before anything is persisted or sent.  `freshId` and
`freshHash` stand for the generated tool-call id and the content hash
returned by `storeVersionedObject`; on success the call is registered in
the pending table with its timeout deadline and the request envelope is
sent (`.ok` returns the correlation hash of the now-pending call). -/
def callTool (cache : CredCache) (pending : List (String × PendingRequest))
    (now : Nat) (freshId freshHash : String) (toolName : String)
    (parameters : Params) (topicId targetPersonId : String) :
    Except String String × List (String × PendingRequest) × RemoteClientEvents :=
  if !(MCPDemandManager.hasAccess cache topicId targetPersonId) then
    (.error ("No MCP access to " ++ targetPersonId.take 8 ++ " in topic " ++
       topicId.take 8), pending, {})
  else if !(MCPDemandManager.isToolAllowed cache topicId targetPersonId toolName) then
    (.error ("Tool " ++ toolName ++ " not allowed by credential"), pending, {})
  else
    let toolCall : MCPToolCallObject :=
      { id := freshId, toolName := toolName, parameters := parameters,
        timestamp := now, topicId := topicId }
    let request : MCPRequest :=
      { targetPersonId := targetPersonId, toolCall := freshHash }
    (.ok freshHash,
     mapSet pending freshHash
       { toolCallHash := freshHash, timeoutAt := now + REQUEST_TIMEOUT },
     { storedToolCalls := [toolCall], sentMessages := [(topicId, request)] })

end MCPRemoteClient

/-! ## Association-list lemmas for the embedded JS maps -/

theorem lookup_mapSet_self {β : Type} (m : List (String × β)) (k : String) (v : β) :
    (mapSet m k v).lookup k = some v := by
  simp [mapSet, List.lookup]

theorem lookup_filter_ne {β : Type} (m : List (String × β)) (k : String) :
    (m.filter (fun p => p.1 != k)).lookup k = none := by
  induction m with
  | nil => rfl
  | cons p rest ih =>
    by_cases h : p.1 = k
    · simp [List.filter, h, ih]
    · have hb : (p.1 != k) = true := by simp [bne, h]
      have hk : (k == p.1) = false :=
        beq_eq_false_iff_ne.mpr (fun he => h he.symm)
      simp [List.filter, hb, List.lookup, hk, ih]

theorem lookup_mapDelete_self {β : Type} (m : List (String × β)) (k : String) :
    (mapDelete m k).lookup k = none :=
  lookup_filter_ne m k

/-- Truncation never changes the key of a parameter pair. -/
theorem truncatePair_fst (kv : String × JsValue) :
    (AuditLogger.truncatePair kv).1 = kv.1 := by
  obtain ⟨k, v⟩ := kv
  cases v with
  | str s =>
    simp only [AuditLogger.truncatePair]
    split <;> rfl
  | num n => rfl
  | boolean b => rfl
  | other => rfl

/-! ## Policy engine lemmas -/

/-- If no supply in the list matches the request, the evaluation loop falls
through to the default-deny decision, leaving the counters untouched. -/
theorem evaluateGo_of_no_match (now : Nat) (context : RequestContext)
    (plan method : String) :
    ∀ (l : List PolicySupply) (matched : List String) (counters : RateCounters),
      (∀ s ∈ l, matchesSupply context plan method s = false) →
      evaluateGo now context plan method l matched counters =
        ({ allowed := false, reason := some "No matching supply",
           matchedRules := matched }, counters) := by
  intro l
  induction l with
  | nil => intro matched counters _; rfl
  | cons s rest ih =>
    intro matched counters h
    have hs : matchesSupply context plan method s = false := h s (by simp)
    have hrest : ∀ u ∈ rest, matchesSupply context plan method u = false :=
      fun u hu => h u (by simp [hu])
    simp [evaluateGo, hs, ih matched counters hrest]

/-! ## Claim theorems -/

/-- C1: for every request context, plan name, method name (and parameters,
which `evaluate` never consults for matching), if no supply in the rule set
matches — in particular when the rule set is empty — `PolicyEngine.evaluate`
returns a decision with `allowed = false` and reason `"No matching supply"`:
there is no implicit allow. -/
theorem policy_default_deny (now : Nat) (st : PolicyEngineState)
    (context : RequestContext) (plan method : String)
    (h : ∀ s ∈ st.sortedSupplies, matchesSupply context plan method s = false) :
    (PolicyEngine.evaluate now st context plan method).1.allowed = false ∧
    (PolicyEngine.evaluate now st context plan method).1.reason =
      some "No matching supply" := by
  have hgo := evaluateGo_of_no_match now context plan method
    st.sortedSupplies [] st.rateLimitCounters h
  constructor
  · simp [PolicyEngine.evaluate, hgo]
  · simp [PolicyEngine.evaluate, hgo]

/-- Witness for C1: the empty rule set denies a concrete request with the
fixed reason. -/
theorem policy_default_deny_witness :
    (PolicyEngine.evaluate 0 { sortedSupplies := [], rateLimitCounters := [] }
        { callerId := "alice", callerType := .user, entryPoint := .ipc,
          timestamp := 0, requestId := "r1" } "plan" "method").1.allowed = false ∧
    (PolicyEngine.evaluate 0 { sortedSupplies := [], rateLimitCounters := [] }
        { callerId := "alice", callerType := .user, entryPoint := .ipc,
          timestamp := 0, requestId := "r1" } "plan" "method").1.reason =
      some "No matching supply" :=
  policy_default_deny 0 { sortedSupplies := [], rateLimitCounters := [] }
    { callerId := "alice", callerType := .user, entryPoint := .ipc,
      timestamp := 0, requestId := "r1" } "plan" "method" (by simp)

/-- C9: `MCPSupplyManager.removeSupply` mutates only the supply map and
never the issued-credential tracking: the issued map is unchanged, no
revocation message (indeed no side effect at all) is produced, and
`hasValidCredential` gives exactly the same answers afterwards — so every
consumer previously issued a credential in that scope still has one. -/
theorem removeSupply_frame (st : MCPSupplyState) (topicId : String) :
    (MCPSupplyManager.removeSupply st topicId).1.issuedCredentials =
      st.issuedCredentials ∧
    (MCPSupplyManager.removeSupply st topicId).2 = {} ∧
    ∀ topic2 consumer : String,
      MCPSupplyManager.hasValidCredential
          (MCPSupplyManager.removeSupply st topicId).1 topic2 consumer =
        MCPSupplyManager.hasValidCredential st topic2 consumer := by
  refine ⟨rfl, rfl, ?_⟩
  intro topic2 consumer
  rfl

/-- C10: in `matchesSupply`, a present-but-empty allow-list behaves exactly
as an absent list (match-all) for every dimension — caller types, entry
points, plan patterns, method patterns, and topics.  In particular a supply
whose `allowedTopics` is the empty list matches a context carrying no topic
id at all, and only a non-empty topic allow-list makes a rule
scope-restricted (it never matches a topic-less context). -/
theorem empty_allow_list_matches_all (context : RequestContext)
    (plan method : String) :
    (∀ s : PolicySupply,
        matchesSupply context plan method { s with allowedCallerTypes := some [] } =
          matchesSupply context plan method { s with allowedCallerTypes := none }) ∧
    (∀ s : PolicySupply,
        matchesSupply context plan method { s with allowedEntryPoints := some [] } =
          matchesSupply context plan method { s with allowedEntryPoints := none }) ∧
    (∀ s : PolicySupply,
        matchesSupply context plan method { s with plans := some [] } =
          matchesSupply context plan method { s with plans := none }) ∧
    (∀ s : PolicySupply,
        matchesSupply context plan method { s with methods := some [] } =
          matchesSupply context plan method { s with methods := none }) ∧
    (∀ s : PolicySupply,
        matchesSupply context plan method { s with allowedTopics := some [] } =
          matchesSupply context plan method { s with allowedTopics := none }) ∧
    (∀ (i n : String) (priority : Int) (action : PolicyAction),
        context.topicId = none →
        matchesSupply context plan method
          { id := i, name := n, priority := priority, action := action,
            allowedTopics := some [] } = true) ∧
    (∀ (s : PolicySupply) (ts : List String),
        s.allowedTopics = some ts → ts ≠ [] → context.topicId = none →
        matchesSupply context plan method s = false) := by
  refine ⟨?_, ?_, ?_, ?_, ?_, ?_, ?_⟩
  · intro s; simp [matchesSupply]
  · intro s; simp [matchesSupply]
  · intro s; simp [matchesSupply]
  · intro s; simp [matchesSupply]
  · intro s; simp [matchesSupply]
  · intro i n priority action htop; simp [matchesSupply, htop]
  · intro s ts hts hne htop
    have hempty : ts.isEmpty = false := by
      cases ts with
      | nil => exact absurd rfl hne
      | cons a l => rfl
    simp [matchesSupply, hts, hempty, htop]

/-- Witness for C10: a supply restricted only by an empty topics list
matches a topic-less concrete request, while the same supply with topic
list `["topic-42"]` does not. -/
theorem empty_allow_list_matches_all_witness :
    matchesSupply
      { callerId := "alice", callerType := .user, entryPoint := .ipc,
        timestamp := 0, requestId := "r1" } "plan" "method"
      { id := "s1", name := "s1", priority := 1, action := .allow,
        allowedTopics := some [] } = true ∧
    matchesSupply
      { callerId := "alice", callerType := .user, entryPoint := .ipc,
        timestamp := 0, requestId := "r1" } "plan" "method"
      { id := "s1", name := "s1", priority := 1, action := .allow,
        allowedTopics := some ["topic-42"] } = false :=
  ⟨(empty_allow_list_matches_all
      { callerId := "alice", callerType := .user, entryPoint := .ipc,
        timestamp := 0, requestId := "r1" } "plan" "method").2.2.2.2.2.1
      "s1" "s1" 1 .allow rfl,
   (empty_allow_list_matches_all
      { callerId := "alice", callerType := .user, entryPoint := .ipc,
        timestamp := 0, requestId := "r1" } "plan" "method").2.2.2.2.2.2
      { id := "s1", name := "s1", priority := 1, action := .allow,
        allowedTopics := some ["topic-42"] } ["topic-42"] rfl (by simp) rfl⟩

/-- C2: the engine inspects rules in descending priority order
(`sortSupplies` yields a permutation of the rule set that is pairwise
descending), skipping non-matching rules unchanged, and the first matching
rule alone determines the decision: `allow` and `allow-with-audit`
terminate immediately with `allowed = true` and the audit flag `false`
resp. `true`, `deny` terminates immediately with `allowed = false`, while
a matching rate-limit rule whose window counter is within its cap does not
terminate evaluation and never independently grants access — the loop
continues with the next rule (with the counter updated and the rule id
recorded as matched). -/
theorem policy_first_match (now : Nat) (context : RequestContext)
    (plan method : String) :
    (∀ l : List PolicySupply,
        (sortSupplies l).Pairwise (fun a b => b.priority ≤ a.priority) ∧
        (sortSupplies l).Perm l) ∧
    (∀ (pre tail : List PolicySupply) (matched : List String)
        (counters : RateCounters),
        (∀ u ∈ pre, matchesSupply context plan method u = false) →
        evaluateGo now context plan method (pre ++ tail) matched counters =
          evaluateGo now context plan method tail matched counters) ∧
    (∀ (supply : PolicySupply) (rest : List PolicySupply)
        (matched : List String) (counters : RateCounters),
        matchesSupply context plan method supply = true →
        (supply.action = .allow →
            evaluateGo now context plan method (supply :: rest) matched counters =
              ({ allowed := true, audit := some false,
                 matchedRules := matched ++ [supply.id] }, counters)) ∧
        (supply.action = .allowWithAudit →
            evaluateGo now context plan method (supply :: rest) matched counters =
              ({ allowed := true, audit := some true,
                 matchedRules := matched ++ [supply.id] }, counters)) ∧
        (supply.action = .deny →
            evaluateGo now context plan method (supply :: rest) matched counters =
              ({ allowed := false,
                 reason := some ("Denied by supply: " ++ supply.name),
                 matchedRules := matched ++ [supply.id] }, counters)) ∧
        (supply.action = .rateLimit →
            (checkRateLimit now context plan method supply counters).1.limited
              = false →
            evaluateGo now context plan method (supply :: rest) matched counters =
              evaluateGo now context plan method rest (matched ++ [supply.id])
                (checkRateLimit now context plan method supply counters).2)) := by
  refine ⟨?_, ?_, ?_⟩
  · intro l
    constructor
    · have hs := @List.sorted_mergeSort PolicySupply suppliesLE
        (fun a b c hab hbc => by
          simp only [suppliesLE, decide_eq_true_eq] at *
          exact le_trans hbc hab)
        (fun a b => by
          simp only [suppliesLE]
          rcases le_total b.priority a.priority with h | h <;> simp [h]) l
      exact hs.imp (fun h => by
        simpa only [suppliesLE, decide_eq_true_eq] using h)
    · exact List.mergeSort_perm l suppliesLE
  · intro pre
    induction pre with
    | nil => intro tail matched counters _; rfl
    | cons u rest ih =>
      intro tail matched counters h
      have hu : matchesSupply context plan method u = false := h u (by simp)
      have hrest : ∀ v ∈ rest, matchesSupply context plan method v = false :=
        fun v hv => h v (by simp [hv])
      simp [evaluateGo, hu, ih tail matched counters hrest]
  · intro supply rest matched counters hmatch
    refine ⟨?_, ?_, ?_, ?_⟩
    · intro ha; simp [evaluateGo, hmatch, ha]
    · intro ha; simp [evaluateGo, hmatch, ha]
    · intro ha; simp [evaluateGo, hmatch, ha]
    · intro ha hlim; simp [evaluateGo, hmatch, ha, hlim]

/-- Witness for C2: a matching allow rule terminates a concrete evaluation
with `allowed = true`, and a matching under-cap rate-limit rule passes a
concrete evaluation on to the rest of the rule list. -/
theorem policy_first_match_witness :
    evaluateGo 0
      { callerId := "alice", callerType := .user, entryPoint := .ipc,
        timestamp := 0, requestId := "r1" } "plan" "method"
      [{ id := "a1", name := "a1", priority := 9, action := .allow }] [] [] =
      ({ allowed := true, audit := some false, matchedRules := ["a1"] }, []) ∧
    evaluateGo 0
      { callerId := "alice", callerType := .user, entryPoint := .ipc,
        timestamp := 0, requestId := "r1" } "plan" "method"
      [{ id := "rl", name := "rl", priority := 9, action := .rateLimit,
         rateLimit := some { maxRequests := 2, windowMs := 5, keyBy := .caller } }]
      [] [] =
      evaluateGo 0
        { callerId := "alice", callerType := .user, entryPoint := .ipc,
          timestamp := 0, requestId := "r1" } "plan" "method"
        [] ["rl"] [("rl:alice", { count := 1, resetAt := 5 })] := by
  constructor
  · exact ((policy_first_match 0
      { callerId := "alice", callerType := .user, entryPoint := .ipc,
        timestamp := 0, requestId := "r1" } "plan" "method").2.2
      { id := "a1", name := "a1", priority := 9, action := .allow }
      [] [] [] rfl).1 rfl
  · exact ((policy_first_match 0
      { callerId := "alice", callerType := .user, entryPoint := .ipc,
        timestamp := 0, requestId := "r1" } "plan" "method").2.2
      { id := "rl", name := "rl", priority := 9, action := .rateLimit,
        rateLimit := some { maxRequests := 2, windowMs := 5, keyBy := .caller } }
      [] [] [] rfl).2.2.2 rfl rfl

/-- C6: credential issuance is idempotent per (scope, provider, consumer).
Whenever the (topic, requester) pair is already tracked as issued,
`handleDemand` creates no credential, persists nothing, sends nothing and
leaves the state unchanged; and a successful first issuance performs
exactly one store and exactly one delivery, tracks the pair, and therefore
makes any repeated demand for the same scope and requester a no-op — one
live credential, one delivery in total. -/
theorem issue_idempotent :
    (∀ (myPersonId : String) (now : Nat) (st : MCPSupplyState)
        (demand : MCPDemand),
        MCPSupplyManager.hasValidCredential st demand.topicId
          demand.requesterPersonId = true →
        MCPSupplyManager.handleDemand myPersonId now st demand =
          (none, st, {})) ∧
    (∀ (myPersonId : String) (now : Nat) (st : MCPSupplyState)
        (demand : MCPDemand) (cred : MCPCredential) (st1 : MCPSupplyState)
        (ev1 : MCPIssueEvents),
        MCPSupplyManager.handleDemand myPersonId now st demand =
          (some cred, st1, ev1) →
        ev1.storedCredentials = [cred] ∧
        ev1.sentCredentials = [(demand.requesterPersonId, cred)] ∧
        MCPSupplyManager.hasValidCredential st1 demand.topicId
          demand.requesterPersonId = true ∧
        (∀ (now2 : Nat) (demand2 : MCPDemand),
            demand2.topicId = demand.topicId →
            demand2.requesterPersonId = demand.requesterPersonId →
            MCPSupplyManager.handleDemand myPersonId now2 st1 demand2 =
              (none, st1, {}))) := by
  have htracked : ∀ (myPersonId : String) (now : Nat) (st : MCPSupplyState)
      (demand : MCPDemand),
      MCPSupplyManager.hasValidCredential st demand.topicId
        demand.requesterPersonId = true →
      MCPSupplyManager.handleDemand myPersonId now st demand =
        (none, st, {}) := by
    intro myPersonId now st demand h
    unfold MCPSupplyManager.hasValidCredential at h
    cases hsup : st.supplies.lookup demand.topicId with
    | none => simp [MCPSupplyManager.handleDemand, hsup]
    | some supply =>
      simp only [MCPSupplyManager.handleDemand, hsup]
      rw [if_pos h]
  refine ⟨htracked, ?_⟩
  intro myPersonId now st demand cred st1 ev1 h
  cases hsup : st.supplies.lookup demand.topicId with
  | none => simp [MCPSupplyManager.handleDemand, hsup] at h
  | some supply =>
    simp only [MCPSupplyManager.handleDemand, hsup] at h
    by_cases hiss :
        ((st.issuedCredentials.lookup demand.topicId).getD []).contains
          demand.requesterPersonId = true
    · rw [if_pos hiss] at h; simp at h
    · rw [if_neg hiss] at h
      simp only [Prod.mk.injEq, Option.some.injEq] at h
      obtain ⟨hcred, hst1, hev1⟩ := h
      subst hcred
      subst hst1
      subst hev1
      refine ⟨rfl, rfl, ?_, ?_⟩
      · simp [MCPSupplyManager.hasValidCredential, lookup_mapSet_self]
      · intro now2 demand2 ht hr
        apply htracked
        rw [ht, hr]
        simp [MCPSupplyManager.hasValidCredential, lookup_mapSet_self]

/-- Witness for C6: a concrete first issuance stores and delivers exactly
one credential, and the repeated identical demand is a no-op. -/
theorem issue_idempotent_witness :
    MCPSupplyManager.handleDemand "me" 2
        { supplies := [("t", { topicId := "t", providerPersonId := "me", createdAt := 0 })], issuedCredentials := [("t", ["c"])] }
        { topicId := "t", requesterPersonId := "c", createdAt := 1 } =
      (none,
       { supplies := [("t", { topicId := "t", providerPersonId := "me", createdAt := 0 })], issuedCredentials := [("t", ["c"])] },
       {}) :=
  issue_idempotent.1 "me" 2
    { supplies := [("t", { topicId := "t", providerPersonId := "me", createdAt := 0 })], issuedCredentials := [("t", ["c"])] }
    { topicId := "t", requesterPersonId := "c", createdAt := 1 } (by decide)

/-- Counterexample for C7: the consumer-side validity check uses JS
truthiness (`if (credential.revokedAt) return false`), so a cached
credential whose revoke timestamp is the number 0 — which does carry a
revoke timestamp — is still reported as giving access: the claim as stated
is false for `revokedAt = 0`. -/
theorem revocation_zero_timestamp_cex :
    ((MCPCredentialCache.getCredential
        (MCPCredentialCache.addCredential []
          { topicId := "t", providerPersonId := "p", consumerPersonId := "c",
            issuedAt := 5, revokedAt := some 0 }) "t" "p").map
        (fun c => c.revokedAt)) = some (some 0) ∧
    MCPDemandManager.hasAccess
      (MCPCredentialCache.addCredential []
        { topicId := "t", providerPersonId := "p", consumerPersonId := "c",
          issuedAt := 5, revokedAt := some 0 }) "t" "p" = true ∧
    MCPDemandManager.isToolAllowed
      (MCPCredentialCache.addCredential []
        { topicId := "t", providerPersonId := "p", consumerPersonId := "c",
          issuedAt := 5, revokedAt := some 0 }) "t" "p" "anyTool" = true := by
  refine ⟨rfl, rfl, rfl⟩

/-- After `removeCredential`, the (topic, provider) pair has no cached
credential any more. -/
theorem getCredential_removeCredential (cache : CredCache)
    (topicId providerPersonId : String) :
    MCPCredentialCache.getCredential
      (MCPCredentialCache.removeCredential cache topicId providerPersonId)
      topicId providerPersonId = none := by
  unfold MCPCredentialCache.removeCredential
  cases hl : cache.lookup topicId with
  | none => simp [MCPCredentialCache.getCredential, hl]
  | some inner =>
    by_cases he : (mapDelete inner providerPersonId).isEmpty = true
    · simp only [he, if_pos]
      simp [MCPCredentialCache.getCredential, lookup_mapDelete_self]
    · simp only [he, if_neg, Bool.not_eq_true]
      simp [MCPCredentialCache.getCredential, lookup_mapSet_self,
        lookup_mapDelete_self, he]

/-- C7 (amended): on the consumer side, after `revokeCredential` for a
(scope, provider) pair, `hasAccess` and `isToolAllowed` (for every tool)
return false; and whenever the cached credential for the pair carries a
NONZERO revoke timestamp, both also return false.  (The original claim,
for any revoke timestamp, fails at the JS-falsy timestamp 0; see the
counterexample.) -/
theorem revocation_denies_access :
    (∀ (cache : CredCache) (topicId providerPersonId toolName : String),
        MCPDemandManager.hasAccess
            (MCPDemandManager.revokeCredential cache topicId providerPersonId)
            topicId providerPersonId = false ∧
        MCPDemandManager.isToolAllowed
            (MCPDemandManager.revokeCredential cache topicId providerPersonId)
            topicId providerPersonId toolName = false) ∧
    (∀ (cache : CredCache) (topicId providerPersonId : String)
        (c : MCPCredential) (t : Nat),
        MCPCredentialCache.getCredential cache topicId providerPersonId =
          some c →
        c.revokedAt = some t → t ≠ 0 →
        MCPDemandManager.hasAccess cache topicId providerPersonId = false ∧
        ∀ toolName : String,
          MCPDemandManager.isToolAllowed cache topicId providerPersonId
            toolName = false) := by
  constructor
  · intro cache topicId providerPersonId toolName
    have hg := getCredential_removeCredential cache topicId providerPersonId
    constructor
    · simp [MCPDemandManager.hasAccess, MCPDemandManager.revokeCredential,
        MCPCredentialCache.hasCredential, hg]
    · simp [MCPDemandManager.isToolAllowed, MCPDemandManager.revokeCredential,
        MCPCredentialCache.isToolAllowed, hg]
  · intro cache topicId providerPersonId c t hget hrev ht
    have htruthy : jsTruthyNum c.revokedAt = true := by
      simp [jsTruthyNum, hrev, ht]
    constructor
    · simp [MCPDemandManager.hasAccess, MCPCredentialCache.hasCredential,
        hget, htruthy]
    · intro toolName
      simp [MCPDemandManager.isToolAllowed, MCPCredentialCache.isToolAllowed,
        hget, htruthy]

/-- Witness for C7 (amended): revoking a concrete cached credential makes
`hasAccess` and `isToolAllowed` false, and a concrete credential with the
nonzero revoke timestamp 7 gives no access. -/
theorem revocation_denies_access_witness :
    (MCPDemandManager.hasAccess
        (MCPDemandManager.revokeCredential
          (MCPCredentialCache.addCredential []
            { topicId := "t", providerPersonId := "p",
              consumerPersonId := "c", issuedAt := 5 }) "t" "p") "t" "p"
      = false) ∧
    (MCPDemandManager.hasAccess
        (MCPCredentialCache.addCredential []
          { topicId := "t", providerPersonId := "p", consumerPersonId := "c",
            issuedAt := 5, revokedAt := some 7 }) "t" "p" = false) :=
  ⟨(revocation_denies_access.1
      (MCPCredentialCache.addCredential []
        { topicId := "t", providerPersonId := "p", consumerPersonId := "c",
          issuedAt := 5 }) "t" "p" "anyTool").1,
   (revocation_denies_access.2
      (MCPCredentialCache.addCredential []
        { topicId := "t", providerPersonId := "p", consumerPersonId := "c",
          issuedAt := 5, revokedAt := some 7 }) "t" "p"
      { topicId := "t", providerPersonId := "p", consumerPersonId := "c",
        issuedAt := 5, revokedAt := some 7 } 7 rfl rfl (by decide)).1⟩

/-- C8: a `callTool` invocation for which the demand manager reports no
live credential for the target (scope, provider), or reports the tool as
not allowed under the credential, rejects with an error before any
`MCPToolCall` record is persisted, without any messaging send, and without
registering a pending request. -/
theorem unauthorized_call_rejected (cache : CredCache)
    (pending : List (String × PendingRequest)) (now : Nat)
    (freshId freshHash toolName : String) (parameters : Params)
    (topicId targetPersonId : String)
    (h : MCPDemandManager.hasAccess cache topicId targetPersonId = false ∨
         MCPDemandManager.isToolAllowed cache topicId targetPersonId toolName
           = false) :
    (∃ msg, (MCPRemoteClient.callTool cache pending now freshId freshHash
        toolName parameters topicId targetPersonId).1 = .error msg) ∧
    (MCPRemoteClient.callTool cache pending now freshId freshHash toolName
        parameters topicId targetPersonId).2.1 = pending ∧
    (MCPRemoteClient.callTool cache pending now freshId freshHash toolName
        parameters topicId targetPersonId).2.2 = {} := by
  by_cases ha : MCPDemandManager.hasAccess cache topicId targetPersonId = false
  · have he : MCPRemoteClient.callTool cache pending now freshId freshHash
        toolName parameters topicId targetPersonId =
        (.error ("No MCP access to " ++ targetPersonId.take 8 ++ " in topic "
          ++ topicId.take 8), pending, {}) := by
      simp [MCPRemoteClient.callTool, ha]
    exact ⟨⟨_, by rw [he]⟩, by rw [he], by rw [he]⟩
  · have ha2 : MCPDemandManager.hasAccess cache topicId targetPersonId = true := by
      revert ha; cases MCPDemandManager.hasAccess cache topicId targetPersonId <;>
        simp
    have ht : MCPDemandManager.isToolAllowed cache topicId targetPersonId
        toolName = false := by
      rcases h with h1 | h1
      · exact absurd h1 ha
      · exact h1
    have he : MCPRemoteClient.callTool cache pending now freshId freshHash
        toolName parameters topicId targetPersonId =
        (.error ("Tool " ++ toolName ++ " not allowed by credential"),
         pending, {}) := by
      simp [MCPRemoteClient.callTool, ha2, ht]
    exact ⟨⟨_, by rw [he]⟩, by rw [he], by rw [he]⟩

/-- Witness for C8: a concrete call against an empty credential cache
rejects with no store, no send and no pending entry. -/
theorem unauthorized_call_rejected_witness :
    (∃ msg, (MCPRemoteClient.callTool [] [] 0 "id1" "hash1" "tool" []
        "t" "p").1 = .error msg) ∧
    (MCPRemoteClient.callTool [] [] 0 "id1" "hash1" "tool" [] "t" "p").2.1
      = [] ∧
    (MCPRemoteClient.callTool [] [] 0 "id1" "hash1" "tool" [] "t" "p").2.2
      = {} :=
  unauthorized_call_rejected [] [] 0 "id1" "hash1" "tool" [] "t" "p"
    (Or.inl rfl)

/-- C4: `PlanRouter.call` always evaluates policy before anything else
(the first observable step is the policy evaluation), and whenever the
decision has `allowed = false` the operation registry is never invoked and
the router raises the distinguishable `PolicyDeniedError` outcome carrying
the whole decision, so callers can branch without inspecting message
strings. -/
theorem router_policy_gate {T : Type} (now endTime : Nat)
    (engine : PolicyEngineState) (audit : AuditState)
    (registry : PlanRegistry T) (context : RequestContext)
    (plan method : String) (params : Params) :
    (PlanRouter.call now endTime engine audit registry context plan method
        params).events.head? = some RouterEvent.policyEvaluated ∧
    ((PolicyEngine.evaluate now engine context plan method).1.allowed = false →
      (PlanRouter.call now endTime engine audit registry context plan method
          params).outcome =
        CallOutcome.policyDenied
          (PolicyEngine.evaluate now engine context plan method).1 ∧
      RouterEvent.registryInvoked ∉
        (PlanRouter.call now endTime engine audit registry context plan
          method params).events) := by
  constructor
  · cases hall : (PolicyEngine.evaluate now engine context plan method).1.allowed
    · simp [PlanRouter.call, hall]
    · cases hreg : registry plan method
          ((PolicyEngine.evaluate now engine context plan
            method).1.filteredParams.getD params) <;>
        cases haud : jsBool
          (PolicyEngine.evaluate now engine context plan method).1.audit <;>
        simp [PlanRouter.call, hall, hreg, haud]
  · intro hdenied
    constructor
    · simp [PlanRouter.call, hdenied]
    · simp [PlanRouter.call, hdenied]

/-- Witness for C4: a concrete denied call (empty rule set) yields the
`PolicyDeniedError` outcome, never invokes the registry, and its first
step is the policy evaluation. -/
theorem router_policy_gate_witness :
    (PlanRouter.call 0 1 { sortedSupplies := [], rateLimitCounters := [] } {}
        (fun _ _ _ => Except.ok 0)
        { callerId := "alice", callerType := .user, entryPoint := .ipc, timestamp := 0, requestId := "r1" }
        "plan" "method" []).events.head? = some RouterEvent.policyEvaluated ∧
    (PlanRouter.call 0 1 { sortedSupplies := [], rateLimitCounters := [] } {}
        (fun _ _ _ => Except.ok 0)
        { callerId := "alice", callerType := .user, entryPoint := .ipc, timestamp := 0, requestId := "r1" }
        "plan" "method" []).outcome =
      CallOutcome.policyDenied
        (PolicyEngine.evaluate 0 { sortedSupplies := [], rateLimitCounters := [] }
          { callerId := "alice", callerType := .user, entryPoint := .ipc, timestamp := 0, requestId := "r1" }
          "plan" "method").1 ∧
    RouterEvent.registryInvoked ∉
      (PlanRouter.call 0 1 { sortedSupplies := [], rateLimitCounters := [] } {}
          (fun _ _ _ => Except.ok 0)
          { callerId := "alice", callerType := .user, entryPoint := .ipc, timestamp := 0, requestId := "r1" }
          "plan" "method" []).events := by
  have h := router_policy_gate (T := Nat) 0 1
    { sortedSupplies := [], rateLimitCounters := [] } {}
    (fun _ _ _ => Except.ok 0)
    { callerId := "alice", callerType := .user, entryPoint := .ipc, timestamp := 0, requestId := "r1" }
    "plan" "method" []
  exact ⟨h.1, (h.2 rfl).1, (h.2 rfl).2⟩

/-- C5: every parameters object passed to `AuditLogger.logRequest` is
buffered (or, if the buffer just filled, already flushed to storage) as an
entry whose parameter snapshot is `redactSensitive params`; in that
snapshot every sensitive-looking key (password, secret, token, apiKey,
privateKey) carries the fixed placeholder `"[REDACTED]"`, and every
non-sensitive string value longer than 1000 characters appears truncated
to 1000 characters with the `"...[truncated]"` marker. -/
theorem audit_redaction (st : AuditState) (context : RequestContext)
    (plan method : String) (params : Params) (decision : AuditDecision)
    (matchedRules : List String) (denyReason : Option String) :
    ((AuditLogger.logRequest st context plan method params decision
        matchedRules denyReason).1 = context.requestId) ∧
    (AuditLogger.entryOf context plan method params decision matchedRules
        denyReason ∈
      (AuditLogger.logRequest st context plan method params decision
        matchedRules denyReason).2.buffer ∨
     AuditLogger.entryOf context plan method params decision matchedRules
        denyReason ∈
      (AuditLogger.logRequest st context plan method params decision
        matchedRules denyReason).2.stored) ∧
    ((AuditLogger.entryOf context plan method params decision matchedRules
        denyReason).params = AuditLogger.redactSensitive params) ∧
    (∀ (k : String) (v : JsValue),
        (k, v) ∈ AuditLogger.redactSensitive params →
        AuditLogger.sensitiveKeys.contains k = true →
        v = JsValue.str "[REDACTED]") ∧
    (∀ (k s : String),
        (k, JsValue.str s) ∈ params →
        AuditLogger.sensitiveKeys.contains k = false →
        1000 < s.length →
        (k, JsValue.str (s.take 1000 ++ "...[truncated]")) ∈
          AuditLogger.redactSensitive params) := by
  refine ⟨rfl, ?_, rfl, ?_, ?_⟩
  · by_cases hfull : AuditLogger.BUFFER_SIZE ≤ st.buffer.length + 1
    · right
      simp [AuditLogger.logRequest, AuditLogger.flush, hfull]
    · left
      simp [AuditLogger.logRequest, AuditLogger.flush, hfull]
  · intro k v hv hk
    rcases List.mem_map.mp hv with ⟨kv1, hkv1, hf2⟩
    rcases List.mem_map.mp hkv1 with ⟨kv0, _, hf1⟩
    by_cases hs : AuditLogger.sensitiveKeys.contains kv0.1 = true
    · have h1 : kv1 = (kv0.1, JsValue.str "[REDACTED]") := by
        rw [← hf1]
        unfold AuditLogger.redactPair
        rw [if_pos hs]
      rw [h1] at hf2
      have h2 : AuditLogger.truncatePair (kv0.1, JsValue.str "[REDACTED]") =
          (kv0.1, JsValue.str "[REDACTED]") := rfl
      rw [h2] at hf2
      injection hf2 with h3 h4
      exact h4.symm
    · have h1 : kv1 = kv0 := by
        rw [← hf1]
        unfold AuditLogger.redactPair
        rw [if_neg hs]
      subst h1
      have hfst : kv1.1 = k := by
        have hc := congrArg Prod.fst hf2
        simpa [truncatePair_fst] using hc
      rw [← hfst] at hk
      exact absurd hk hs
  · intro k s hmem hk hlen
    have hk2 : ¬ (AuditLogger.sensitiveKeys.contains k = true) := by
      intro hc
      rw [hk] at hc
      exact absurd hc (by decide)
    have h1 : AuditLogger.redactPair (k, JsValue.str s) = (k, JsValue.str s) := by
      unfold AuditLogger.redactPair
      rw [if_neg hk2]
    have h2 : AuditLogger.truncatePair (k, JsValue.str s) =
        (k, JsValue.str (s.take 1000 ++ "...[truncated]")) := by
      show (if 1000 < s.length then
        (k, JsValue.str (s.take 1000 ++ "...[truncated]"))
        else (k, JsValue.str s)) = _
      rw [if_pos hlen]
    have hm1 : AuditLogger.redactPair (k, JsValue.str s) ∈
        params.map AuditLogger.redactPair :=
      List.mem_map_of_mem _ hmem
    rw [h1] at hm1
    have hm2 : AuditLogger.truncatePair (k, JsValue.str s) ∈
        (params.map AuditLogger.redactPair).map AuditLogger.truncatePair :=
      List.mem_map_of_mem _ hm1
    rw [h2] at hm2
    exact hm2

/-- Witness for C5: logging concrete parameters with a sensitive key and an
oversized string buffers an entry whose snapshot carries the placeholder
and the truncation marker. -/
theorem audit_redaction_witness :
    ((AuditLogger.logRequest {}
        { callerId := "alice", callerType := .user, entryPoint := .ipc, timestamp := 0, requestId := "r1" }
        "plan" "method" [("big", JsValue.str (String.mk (List.replicate 1001 'x')))]
        .denied [] none).1 = "r1") ∧
    (("password", JsValue.str "[REDACTED]") ∈
      AuditLogger.redactSensitive [("password", JsValue.str "hunter2")]) ∧
    ("big", JsValue.str ((String.mk (List.replicate 1001 'x')).take 1000 ++ "...[truncated]")) ∈
      AuditLogger.redactSensitive
        [("big", JsValue.str (String.mk (List.replicate 1001 'x')))] := by
  have h := audit_redaction {}
    { callerId := "alice", callerType := .user, entryPoint := .ipc, timestamp := 0, requestId := "r1" }
    "plan" "method"
    [("big", JsValue.str (String.mk (List.replicate 1001 'x')))]
    .denied [] none
  refine ⟨h.1, by decide, ?_⟩
  exact h.2.2.2.2 "big" (String.mk (List.replicate 1001 'x'))
    (by simp)
    (by decide)
    (by simp only [String.length_mk, List.length_replicate]; omega)

/-- C3: for a rate-limit rule capped at 2 requests per window, three
requests matching that rule within one window — evaluated against a rule
set where a lower-priority allow rule also matches — give: the first two
pass the rate-limit rule (evaluation continues and the allow rule grants
them), and the third terminates with `allowed = false` and a rate-limit
detail whose `retryAfter` is strictly greater than 0. -/
theorem rate_limit_caps_requests
    (now1 now2 now3 w : Nat) (kb : RateKeyBy)
    (context : RequestContext) (plan method : String)
    (rl ar : PolicySupply) (counters : RateCounters)
    (hrla : rl.action = .rateLimit)
    (hcfg : rl.rateLimit = some { maxRequests := 2, windowMs := w, keyBy := kb })
    (hara : ar.action = .allow)
    (hm1 : matchesSupply context plan method rl = true)
    (hm2 : matchesSupply context plan method ar = true)
    (hprio : ar.priority ≤ rl.priority)
    (hfresh : counters.lookup
      (rateLimitKey context plan method rl
        { maxRequests := 2, windowMs := w, keyBy := kb }) = none)
    (h12 : now1 ≤ now2) (h23 : now2 ≤ now3) (hwin : now3 < now1 + w) :
    ((PolicyEngine.evaluate now1
        { sortedSupplies := [rl, ar], rateLimitCounters := counters }
        context plan method).1.allowed = true) ∧
    ((PolicyEngine.evaluate now2
        (PolicyEngine.evaluate now1
          { sortedSupplies := [rl, ar], rateLimitCounters := counters }
          context plan method).2
        context plan method).1.allowed = true) ∧
    ((PolicyEngine.evaluate now3
        (PolicyEngine.evaluate now2
          (PolicyEngine.evaluate now1
            { sortedSupplies := [rl, ar], rateLimitCounters := counters }
            context plan method).2
          context plan method).2
        context plan method).1.allowed = false) ∧
    (∃ info : RateLimitInfo,
      (PolicyEngine.evaluate now3
        (PolicyEngine.evaluate now2
          (PolicyEngine.evaluate now1
            { sortedSupplies := [rl, ar], rateLimitCounters := counters }
            context plan method).2
          context plan method).2
        context plan method).1.rateLimit = some info ∧
      info.limited = true ∧
      ∃ ra : Int, info.retryAfter = some ra ∧ 0 < ra) := by
  have hnr2 : ¬ (now1 + w ≤ now2) := by omega
  have hnr3 : ¬ (now1 + w ≤ now3) := by omega
  have hc1 : checkRateLimit now1 context plan method rl counters =
      ({ limited := false, remaining := some 1, resetAt := now1 + w },
       mapSet counters
         (rateLimitKey context plan method rl
           { maxRequests := 2, windowMs := w, keyBy := kb })
         { count := 1, resetAt := now1 + w }) := by
    simp [checkRateLimit, hcfg, hfresh]
  have he1 : PolicyEngine.evaluate now1
      { sortedSupplies := [rl, ar], rateLimitCounters := counters }
      context plan method =
      ({ allowed := true, audit := some false, matchedRules := [rl.id, ar.id] },
       { sortedSupplies := [rl, ar],
         rateLimitCounters :=
           mapSet counters
             (rateLimitKey context plan method rl
               { maxRequests := 2, windowMs := w, keyBy := kb })
             { count := 1, resetAt := now1 + w } }) := by
    simp [PolicyEngine.evaluate, evaluateGo, hm1, hm2, hrla, hara, hc1]
  have hc2 : checkRateLimit now2 context plan method rl
      (mapSet counters
        (rateLimitKey context plan method rl
          { maxRequests := 2, windowMs := w, keyBy := kb })
        { count := 1, resetAt := now1 + w }) =
      ({ limited := false, remaining := some 0, resetAt := now1 + w },
       mapSet
         (mapSet counters
           (rateLimitKey context plan method rl
             { maxRequests := 2, windowMs := w, keyBy := kb })
           { count := 1, resetAt := now1 + w })
         (rateLimitKey context plan method rl
           { maxRequests := 2, windowMs := w, keyBy := kb })
         { count := 2, resetAt := now1 + w }) := by
    simp [checkRateLimit, hcfg, lookup_mapSet_self, hnr2]
  have he2 : PolicyEngine.evaluate now2
      (PolicyEngine.evaluate now1
        { sortedSupplies := [rl, ar], rateLimitCounters := counters }
        context plan method).2
      context plan method =
      ({ allowed := true, audit := some false, matchedRules := [rl.id, ar.id] },
       { sortedSupplies := [rl, ar],
         rateLimitCounters :=
           mapSet
             (mapSet counters
               (rateLimitKey context plan method rl
                 { maxRequests := 2, windowMs := w, keyBy := kb })
               { count := 1, resetAt := now1 + w })
             (rateLimitKey context plan method rl
               { maxRequests := 2, windowMs := w, keyBy := kb })
             { count := 2, resetAt := now1 + w } }) := by
    rw [he1]
    simp [PolicyEngine.evaluate, evaluateGo, hm1, hm2, hrla, hara, hc2]
  have hc3 : checkRateLimit now3 context plan method rl
      (mapSet
        (mapSet counters
          (rateLimitKey context plan method rl
            { maxRequests := 2, windowMs := w, keyBy := kb })
          { count := 1, resetAt := now1 + w })
        (rateLimitKey context plan method rl
          { maxRequests := 2, windowMs := w, keyBy := kb })
        { count := 2, resetAt := now1 + w }) =
      ({ limited := true, remaining := some 0, resetAt := now1 + w,
         retryAfter := some (((now1 + w : Nat) : Int) - (now3 : Int)) },
       mapSet
         (mapSet
           (mapSet counters
             (rateLimitKey context plan method rl
               { maxRequests := 2, windowMs := w, keyBy := kb })
             { count := 1, resetAt := now1 + w })
           (rateLimitKey context plan method rl
             { maxRequests := 2, windowMs := w, keyBy := kb })
           { count := 2, resetAt := now1 + w })
         (rateLimitKey context plan method rl
           { maxRequests := 2, windowMs := w, keyBy := kb })
         { count := 3, resetAt := now1 + w }) := by
    simp [checkRateLimit, hcfg, lookup_mapSet_self, hnr3]
  refine ⟨?_, ?_, ?_, ?_⟩
  · rw [he1]
  · rw [he2]
  · rw [he2]
    simp [PolicyEngine.evaluate, evaluateGo, hm1, hrla, hc3]
  · rw [he2]
    refine ⟨{ limited := true, remaining := some 0, resetAt := now1 + w, retryAfter := some (((now1 + w : Nat) : Int) - (now3 : Int)) }, ?_, rfl, ?_⟩
    · simp [PolicyEngine.evaluate, evaluateGo, hm1, hrla, hc3]
    · refine ⟨((now1 + w : Nat) : Int) - (now3 : Int), rfl, ?_⟩
      omega

/-- Witness for C3: a concrete rate-limit rule capped at 2 per 1000ms plus
a lower-priority allow rule — three identical requests at times 10, 20, 30
give allow, allow, deny-with-positive-retryAfter. -/
theorem rate_limit_caps_requests_witness :
    ((PolicyEngine.evaluate 10
        { sortedSupplies := [{ id := "rl", name := "rl", priority := 900, action := .rateLimit, rateLimit := some { maxRequests := 2, windowMs := 1000, keyBy := .caller } }, { id := "ar", name := "ar", priority := 100, action := .allow }], rateLimitCounters := [] }
        { callerId := "alice", callerType := .user, entryPoint := .ipc, timestamp := 0, requestId := "r1" }
        "plan" "method").1.allowed = true) ∧
    ((PolicyEngine.evaluate 20
        (PolicyEngine.evaluate 10
          { sortedSupplies := [{ id := "rl", name := "rl", priority := 900, action := .rateLimit, rateLimit := some { maxRequests := 2, windowMs := 1000, keyBy := .caller } }, { id := "ar", name := "ar", priority := 100, action := .allow }], rateLimitCounters := [] }
          { callerId := "alice", callerType := .user, entryPoint := .ipc, timestamp := 0, requestId := "r1" }
          "plan" "method").2
        { callerId := "alice", callerType := .user, entryPoint := .ipc, timestamp := 0, requestId := "r1" }
        "plan" "method").1.allowed = true) ∧
    ((PolicyEngine.evaluate 30
        (PolicyEngine.evaluate 20
          (PolicyEngine.evaluate 10
            { sortedSupplies := [{ id := "rl", name := "rl", priority := 900, action := .rateLimit, rateLimit := some { maxRequests := 2, windowMs := 1000, keyBy := .caller } }, { id := "ar", name := "ar", priority := 100, action := .allow }], rateLimitCounters := [] }
            { callerId := "alice", callerType := .user, entryPoint := .ipc, timestamp := 0, requestId := "r1" }
            "plan" "method").2
          { callerId := "alice", callerType := .user, entryPoint := .ipc, timestamp := 0, requestId := "r1" }
          "plan" "method").2
        { callerId := "alice", callerType := .user, entryPoint := .ipc, timestamp := 0, requestId := "r1" }
        "plan" "method").1.allowed = false) ∧
    (∃ info : RateLimitInfo,
      (PolicyEngine.evaluate 30
        (PolicyEngine.evaluate 20
          (PolicyEngine.evaluate 10
            { sortedSupplies := [{ id := "rl", name := "rl", priority := 900, action := .rateLimit, rateLimit := some { maxRequests := 2, windowMs := 1000, keyBy := .caller } }, { id := "ar", name := "ar", priority := 100, action := .allow }], rateLimitCounters := [] }
            { callerId := "alice", callerType := .user, entryPoint := .ipc, timestamp := 0, requestId := "r1" }
            "plan" "method").2
          { callerId := "alice", callerType := .user, entryPoint := .ipc, timestamp := 0, requestId := "r1" }
          "plan" "method").2
        { callerId := "alice", callerType := .user, entryPoint := .ipc, timestamp := 0, requestId := "r1" }
        "plan" "method").1.rateLimit = some info ∧
      info.limited = true ∧
      ∃ ra : Int, info.retryAfter = some ra ∧ 0 < ra) :=
  rate_limit_caps_requests 10 20 30 1000 .caller
    { callerId := "alice", callerType := .user, entryPoint := .ipc, timestamp := 0, requestId := "r1" }
    "plan" "method"
    { id := "rl", name := "rl", priority := 900, action := .rateLimit, rateLimit := some { maxRequests := 2, windowMs := 1000, keyBy := .caller } }
    { id := "ar", name := "ar", priority := 100, action := .allow }
    [] rfl rfl rfl rfl rfl (by decide) rfl (by omega) (by omega) (by omega)

end McpCore
